import Mathlib

/-!
Verification development for the Simple Reminder App (app.js + sw.js).

The JavaScript source is shallowly embedded: the app's global mutable state
becomes an explicit `AppState` record, each source function becomes a pure
Lean function from the old state (plus the outcomes of its network calls,
clock reads and user prompts, which are inputs of the embedding) to the new
state, and the service worker's handlers become pure functions of their
event data.  Timestamp strings (`dateTime`, `created`, `modified`) are
represented by their parsed epoch-millisecond values (an `Int`), which is
the form in which the source consumes them (`new Date(x).getTime()`).
-/

/-- JSON values, as produced by `JSON.parse` / consumed by `JSON.stringify`.
All numbers appearing in the app's persisted data are integral
(epoch-millisecond timestamps), so numbers are modelled as `Int`. -/
inductive Json where
  | null
  | bool (b : Bool)
  | num (n : Int)
  | str (s : String)
  | arr (elems : List Json)
  | obj (fields : List (String × Json))

/-- JS property lookup on an object modelled as a field list.  `JSON.parse`
and repeated assignment both make the *last* write to a key win, so lookup
returns the last binding of the key. -/
def jGet (fields : List (String × Json)) (k : String) : Option Json :=
  match fields with
  | [] => none
  | (k', v) :: rest =>
    match jGet rest k with
    | some w => some w
    | none => if k' = k then some v else none

/-- A reminder record, as created by `addReminder`:
`{ id: Date.now(), dateTime, note, repeat, created }`, with `modified`
added by `saveEdit`.  `repeat` is a Lean keyword, hence `repeatRule`. -/
structure Reminder where
  id : Int
  dateTime : Int
  note : String
  repeatRule : String
  created : Int
  modified : Option Int := none
deriving Repr, DecidableEq

/-- `JSON.stringify` of one reminder object (field order as constructed by
`addReminder`, with `modified` appended by `saveEdit` when present). -/
def reminderToJson (r : Reminder) : Json :=
  Json.obj ([("id", Json.num r.id), ("dateTime", Json.num r.dateTime),
             ("note", Json.str r.note), ("repeat", Json.str r.repeatRule),
             ("created", Json.num r.created)] ++
            (match r.modified with
             | some m => [("modified", Json.num m)]
             | none => []))

/-- `JSON.stringify(reminders)`: the persisted representation of the set. -/
def remindersToJson (rs : List Reminder) : Json :=
  Json.arr (rs.map reminderToJson)

/-- Reading one reminder object back out of parsed JSON.  The source assigns
the parse result without shape validation; the shape check here returns
`none` exactly on data the app never writes ("corrupted input"), and agrees
with the source on every value `saveLocalReminders` produces. -/
def jsonToReminder (j : Json) : Option Reminder :=
  match j with
  | Json.obj fields =>
    match jGet fields "id", jGet fields "dateTime", jGet fields "note",
          jGet fields "repeat", jGet fields "created" with
    | some (Json.num i), some (Json.num dt), some (Json.str nt),
      some (Json.str rp), some (Json.num cr) =>
      some { id := i, dateTime := dt, note := nt, repeatRule := rp,
             created := cr,
             modified := match jGet fields "modified" with
                         | some (Json.num m) => some m
                         | _ => none }
    | _, _, _, _, _ => none
  | _ => none

/-- Element-wise decoding of the persisted array. -/
def decodeReminderList : List Json → Option (List Reminder)
  | [] => some []
  | j :: rest =>
    match jsonToReminder j, decodeReminderList rest with
    | some r, some rs => some (r :: rs)
    | _, _ => none

/-- Decoding the whole persisted value. -/
def jsonToReminders : Json → Option (List Reminder)
  | Json.arr elems => decodeReminderList elems
  | _ => none

/-- `loadLocalReminders`: reads `localStorage['simple_reminders']`.  An
absent key leaves the initial empty set; a parse failure (the `catch`
branch) also yields the empty set. -/
def loadLocalReminders (saved : Option Json) : List Reminder :=
  match saved with
  | none => []
  | some j => (jsonToReminders j).getD []

/-- The foreground app's global mutable state (`app.js` top of file), plus
the two localStorage keys it touches (`simple_reminders` as parsed JSON,
`notifications_enabled` as a raw string). -/
structure AppState where
  reminders : List Reminder
  store : Option Json
  notifEnabledKey : Option String
  isOnline : Bool
  syncInProgress : Bool
  editingId : Option Int
  notificationsEnabled : Bool
  subscriptionActive : Bool
  status : String
  statusType : String

/-- The globals' initial values (`let reminders = []`, `isOnline = false`,
`syncInProgress = false`, `editingId = null`, ... on a fresh install with
empty localStorage). -/
def initState : AppState :=
  { reminders := [], store := none, notifEnabledKey := none,
    isOnline := false, syncInProgress := false, editingId := none,
    notificationsEnabled := false, subscriptionActive := false,
    status := "", statusType := "" }

/-- `saveLocalReminders`: writes `JSON.stringify(reminders)` under the
`simple_reminders` key (best effort; a storage failure is only logged). -/
def saveLocalReminders (s : AppState) : AppState :=
  { s with store := some (remindersToJson s.reminders) }

/-- The outcome of one `fetch` call, as observed by the calling code:
either the promise rejects (network failure, with the platform's error
message), or a response arrives with `ok` (2xx), `status`, and a body that
`response.json()` either parses (`some`) or throws on (`none`). -/
inductive FetchOutcome where
  | fail (msg : String)
  | resp (ok : Bool) (status : Nat) (jsonBody : Option Json)

/-- `updateStatus(message, type)` (the DOM write is modelled by the two
status fields of `AppState`). -/
def updateStatus (s : AppState) (message ty : String) : AppState :=
  { s with status := message, statusType := ty }

/-- `syncWithServer()`.  The second component records whether the
`POST /sync-reminders` request was issued at all; the function body is the
whole `try/catch/finally`, so it never throws and issues at most this one
request.  `o` is the outcome of that request. -/
def syncWithServer (s : AppState) (o : FetchOutcome) : AppState × Bool :=
  if !s.isOnline || s.syncInProgress then (s, false)
  else
    let s1 := updateStatus { s with syncInProgress := true }
                "📤 Syncing with server..." "syncing"
    match o with
    | FetchOutcome.resp true _ (some _) =>
      ({ updateStatus s1 "🟢 Online - Synced successfully" "online" with
         syncInProgress := false }, true)
    | FetchOutcome.resp true _ none =>
      -- response.ok but response.json() threw: caught like any failure
      ({ updateStatus { s1 with isOnline := false }
           "⚠️ Sync failed - Working offline" "offline" with
         syncInProgress := false }, true)
    | FetchOutcome.resp false _ _ =>
      ({ updateStatus { s1 with isOnline := false }
           "⚠️ Sync failed - Working offline" "offline" with
         syncInProgress := false }, true)
    | FetchOutcome.fail _ =>
      ({ updateStatus { s1 with isOnline := false }
           "⚠️ Sync failed - Working offline" "offline" with
         syncInProgress := false }, true)

/-- Whether a probe outcome takes the success path of `connectToServer`:
`response.ok` and `response.json()` succeeding. -/
def probeSucceeds : FetchOutcome → Bool
  | FetchOutcome.resp true _ (some _) => true
  | _ => false

/-- The probe half of `connectToServer()`: status goes to "Connecting",
then on a 2xx response whose body parses as JSON the state becomes online
(and the caller proceeds to `syncWithServer`, signalled by the `Bool`);
on any other outcome the `catch` sets the state offline. -/
def connectProbe (s : AppState) (o : FetchOutcome) : AppState × Bool :=
  let s0 := updateStatus s "📡 Connecting..." "offline"
  if probeSucceeds o then
    (updateStatus { s0 with isOnline := true }
       "🟢 Online - Server connected" "online", true)
  else
    (updateStatus { s0 with isOnline := false }
       "🔴 Offline - Working locally" "offline", false)

/-- `connectToServer()`: probe, then on success `await syncWithServer()`
(whose outcome is `syncO`). -/
def connectToServer (s : AppState) (probe syncO : FetchOutcome) : AppState :=
  let p := connectProbe s probe
  if p.2 then (syncWithServer p.1 syncO).1 else p.1

/-- The `window 'offline'` event listener. -/
def handleOfflineEvent (s : AppState) : AppState :=
  updateStatus { s with isOnline := false }
    "🔴 Offline - Working locally" "offline"

/-- The `visibilitychange` listener (with the document visible):
`if (!document.hidden && isOnline && !syncInProgress) syncWithServer()`. -/
def handleVisible (s : AppState) (o : FetchOutcome) : AppState :=
  if s.isOnline && !s.syncInProgress then (syncWithServer s o).1 else s

/-- The 30-second retry timer: `if (!isOnline) connectToServer()`. -/
def retryTick (s : AppState) (probe syncO : FetchOutcome) : AppState :=
  if !s.isOnline then connectToServer s probe syncO else s

/-- Strip leading whitespace from a character list. -/
def dropLeadingWs : List Char → List Char
  | [] => []
  | c :: cs => if c.isWhitespace then dropLeadingWs cs else c :: cs

/-- JS `String.prototype.trim`: strip whitespace from both ends. -/
def jsTrim (s : String) : String :=
  String.mk ((dropLeadingWs ((dropLeadingWs s.data).reverse)).reverse)

/-- `addReminder()`.  Inputs are the form values (`dt = none` models an
empty date field; the note is trimmed as in the source), the clock reading
`now` (`Date.now()`, also used for `created`), the answer to the
past-time `confirm` prompt, and the outcome of the sync request issued
when online. -/
def addReminder (s : AppState) (dt : Option Int) (noteRaw rpt : String)
    (now : Int) (confirmPast : Bool) (o : FetchOutcome) : AppState :=
  match dt with
  | none => s
  | some t =>
    let note := jsTrim noteRaw
    if note = "" then s
    else if t ≤ now && !confirmPast then s
    else
      let r : Reminder := { id := now, dateTime := t, note := note,
                            repeatRule := rpt, created := now }
      let s1 := saveLocalReminders { s with reminders := s.reminders ++ [r] }
      if s1.isOnline then (syncWithServer s1 o).1 else s1

/-- `editReminder(id)`: only sets `editingId` (and shows the form) when a
reminder with that id exists; otherwise returns before doing anything. -/
def editReminder (s : AppState) (i : Int) : AppState :=
  if s.reminders.any (fun r => r.id = i) then { s with editingId := some i }
  else s

/-- Replace the first list element satisfying `p` (the
`findIndex` + single-slot assignment pattern of `saveEdit`). -/
def updateFirst (p : α → Bool) (f : α → α) : List α → List α
  | [] => []
  | x :: xs => if p x then f x :: xs else x :: updateFirst p f xs

/-- `saveEdit()`.  Validation first; then the reminder whose id equals
`editingId` (if any) is overwritten field-wise, keeping its `id` and
`created` and stamping `modified := now`; `cancelEdit()` clears
`editingId`; a sync is issued when online (second component: whether the
sync request went out). -/
def saveEdit (s : AppState) (dt : Option Int) (noteRaw rpt : String)
    (now : Int) (o : FetchOutcome) : AppState × Bool :=
  match dt with
  | none => (s, false)
  | some t =>
    let note := jsTrim noteRaw
    if note = "" then (s, false)
    else
      let p := fun r : Reminder => s.editingId = some r.id
      if s.reminders.any p then
        let rs := updateFirst p
          (fun r =>
            { r with dateTime := t, note := note, repeatRule := rpt, modified := some now })
          s.reminders
        let s1 := { saveLocalReminders { s with reminders := rs } with
                    editingId := none }
        if s1.isOnline then syncWithServer s1 o else (s1, false)
      else (s, false)

/-- `deleteReminder(id)`.  Returns the new state, whether the `confirm`
dialog was shown, and whether a sync request was issued.  An id with no
matching reminder returns before the prompt. -/
def deleteReminder (s : AppState) (i : Int) (confirmAns : Bool)
    (o : FetchOutcome) : AppState × Bool × Bool :=
  if s.reminders.any (fun r => r.id = i) then
    if confirmAns then
      let s1 := saveLocalReminders
        { s with reminders := s.reminders.filter (fun r => !(r.id = i)) }
      if s1.isOnline then ((syncWithServer s1 o).1, true, (syncWithServer s1 o).2)
      else (s1, true, false)
    else (s, true, false)
  else (s, false, false)

/-- The retention predicate of `cleanupPastReminders`: a reminder is kept
unless its repeat rule is `once` and `hoursAgo > 24`.  The source computes
`hoursAgo = (now - t) / 3600000` in IEEE doubles and compares `> 24`; for
integral millisecond differences this holds exactly when
`now - t > 24*60*60*1000` (24 is exactly representable and the quotient of
any integer other than 86400000 lands far from it), so the strict integer
comparison is the faithful model. -/
def keepReminder (now : Int) (r : Reminder) : Bool :=
  if r.repeatRule = "once" ∧ now - r.dateTime > 24 * 60 * 60 * 1000 then false
  else true

/-- The list-level body of `cleanupPastReminders()`. -/
def cleanupPastReminders (now : Int) (rs : List Reminder) : List Reminder :=
  rs.filter (keepReminder now)

/-- `cleanupPastReminders()` as a state transition: filter, and persist
when anything was removed. -/
def cleanupPastRemindersApp (s : AppState) (now : Int) : AppState :=
  let rs := cleanupPastReminders now s.reminders
  if rs.length = s.reminders.length then { s with reminders := rs }
  else saveLocalReminders { s with reminders := rs }

/-- One asynchronous trigger of the foreground app, with the outcomes of
the network calls / prompts it performs bundled in. -/
inductive AppEvent where
  | startupConnect (probe syncO : FetchOutcome)
  | onlineEvt (probe syncO : FetchOutcome)
  | retryTimer (probe syncO : FetchOutcome)
  | offlineEvt
  | visibilityChange (o : FetchOutcome)
  | addEvt (dt : Option Int) (noteRaw rpt : String) (now : Int)
      (confirmPast : Bool) (o : FetchOutcome)
  | editEvt (i : Int)
  | saveEditEvt (dt : Option Int) (noteRaw rpt : String) (now : Int)
      (o : FetchOutcome)
  | deleteEvt (i : Int) (confirmAns : Bool) (o : FetchOutcome)
  | cleanupEvt (now : Int)

/-- Dispatch one event to the corresponding source handler. -/
def step (s : AppState) : AppEvent → AppState
  | AppEvent.startupConnect probe syncO => connectToServer s probe syncO
  | AppEvent.onlineEvt probe syncO => connectToServer s probe syncO
  | AppEvent.retryTimer probe syncO => retryTick s probe syncO
  | AppEvent.offlineEvt => handleOfflineEvent s
  | AppEvent.visibilityChange o => handleVisible s o
  | AppEvent.addEvt dt noteRaw rpt now cp o => addReminder s dt noteRaw rpt now cp o
  | AppEvent.editEvt i => editReminder s i
  | AppEvent.saveEditEvt dt noteRaw rpt now o => (saveEdit s dt noteRaw rpt now o).1
  | AppEvent.deleteEvt i ca o => (deleteReminder s i ca o).1
  | AppEvent.cleanupEvt now => cleanupPastRemindersApp s now

/-- Run a sequence of triggers. -/
def runEvents (s : AppState) : List AppEvent → AppState
  | [] => s
  | e :: es => runEvents (step s e) es

/-- Whether an event carries a successful reachability probe (the only way
any handler ever sets `isOnline := true`). -/
def eventProbeSucceeds : AppEvent → Bool
  | AppEvent.startupConnect probe _ => probeSucceeds probe
  | AppEvent.onlineEvt probe _ => probeSucceeds probe
  | AppEvent.retryTimer probe _ => probeSucceeds probe
  | _ => false

/-- `Notification.permission` values. -/
inductive Permission where
  | granted
  | denied
  | defaultPerm
deriving DecidableEq, Repr

/-- The environment of one `enableNotifications()` run: the platform and
network facts the sequence observes, in order.  `requestResult` is the
value `Notification.requestPermission()` resolves to (consulted only when
the current permission is `defaultPerm`); `subscribeErr` is the rejection
message of `pushManager.subscribe` (or `none` on success); the two
`...JsonErr` strings are the messages of a throwing `response.json()`. -/
structure EnableEnv where
  swReady : Bool
  permission : Permission
  requestResult : Permission
  vapid : FetchOutcome
  vapidJsonErr : String
  subscribeErr : Option String
  subResp : FetchOutcome
  subJsonErr : String

/-- Outcome of `enableNotifications()`: either the whole sequence
succeeded, or it aborted with the thrown error's message (shown by
`showNotificationError`). -/
inductive EnableOutcome where
  | success
  | aborted (cause : String)
deriving DecidableEq, Repr

/-- The permission value the sequence acts on: the current one, or the
prompt's result when the current one is still `default`. -/
def effectivePermission (env : EnableEnv) : Permission :=
  if env.permission = Permission.defaultPerm then env.requestResult
  else env.permission

/-- `enableNotifications()`: the strictly ordered setup sequence.  Every
`throw` lands in the `catch`, which only reports the message and re-enables
the button — so on any abort the state (in particular the persisted
`notifications_enabled` key) is returned untouched; the key is written,
and the in-memory flags set, only after the final step succeeded. -/
def enableNotifications (env : EnableEnv) (s : AppState) :
    AppState × EnableOutcome :=
  if !env.swReady then
    (s, EnableOutcome.aborted "Service Worker not available")
  else if effectivePermission env ≠ Permission.granted then
    (s, EnableOutcome.aborted "Notification permission denied")
  else if !s.isOnline then
    (s, EnableOutcome.aborted "Server not connected. Please wait for connection.")
  else
    match env.vapid with
    | FetchOutcome.fail msg => (s, EnableOutcome.aborted msg)
    | FetchOutcome.resp ok st body =>
      if !ok then
        (s, EnableOutcome.aborted ("VAPID endpoint failed: " ++ toString st))
      else
        match body with
        | none => (s, EnableOutcome.aborted env.vapidJsonErr)
        | some _ =>
          match env.subscribeErr with
          | some msg => (s, EnableOutcome.aborted msg)
          | none =>
            match env.subResp with
            | FetchOutcome.fail msg => (s, EnableOutcome.aborted msg)
            | FetchOutcome.resp ok2 st2 body2 =>
              if !ok2 then
                (s, EnableOutcome.aborted ("Subscription failed: " ++ toString st2))
              else
                match body2 with
                | none => (s, EnableOutcome.aborted env.subJsonErr)
                | some _ =>
                  ({ s with notificationsEnabled := true,
                            subscriptionActive := true,
                            notifEnabledKey := some "true" },
                   EnableOutcome.success)

/-- Substring test, modelling JS `String.prototype.includes`. -/
def strContains (s pat : String) : Bool :=
  s.toList.tails.any (fun t => pat.toList.isPrefixOf t)

/-- The service worker's pass-through test:
`url.includes('192.168.') && url.includes(':3001')`. -/
def isPiServerRequest (url : String) : Bool :=
  strContains url "192.168." && strContains url ":3001"

/-- An HTTP response as far as the fetch handler distinguishes them. -/
structure Resp where
  status : Nat
  body : String
deriving DecidableEq, Repr

/-- What the fetch handler does with a request: leave it to the browser
untouched (no `respondWith`), or answer it with a response. -/
inductive FetchDecision where
  | network
  | respond (r : Resp)
deriving DecidableEq, Repr

/-- The `fetch` event listener of `sw.js`: Pi-server URLs are returned
from without interception; otherwise `caches.match` (`cache`), else live
`fetch` (`net`, `none` = rejection), else the synthetic
`Response('Network error', { status: 408 })`. -/
def handleFetch (url : String) (cache net : Option Resp) : FetchDecision :=
  if isPiServerRequest url then FetchDecision.network
  else
    match cache with
    | some r => FetchDecision.respond r
    | none =>
      match net with
      | some r => FetchDecision.respond r
      | none => FetchDecision.respond { status := 408, body := "Network error" }

/-- The default `notificationData` record of the `push` listener, as a
field list (the `data` sub-object, whose values are the runtime origin and
clock, is omitted; no claim and no merge behaviour of the remaining keys
depends on it). -/
def defaultNotificationFields : List (String × Json) :=
  [("title", Json.str "⏰ Reminder"),
   ("body", Json.str "Scheduled reminder from your Pi!"),
   ("icon", Json.str "data:image/svg+xml,<svg xmlns=\"http://www.w3.org/2000/svg\" viewBox=\"0 0 100 100\"><circle cx=\"50\" cy=\"50\" r=\"40\" fill=\"%233b82f6\"/><text x=\"50\" y=\"65\" text-anchor=\"middle\" font-size=\"30\" fill=\"white\">⏰</text></svg>"),
   ("badge", Json.str "data:image/svg+xml,<svg xmlns=\"http://www.w3.org/2000/svg\" viewBox=\"0 0 100 100\"><circle cx=\"50\" cy=\"50\" r=\"40\" fill=\"%23ef4444\"/><text x=\"50\" y=\"65\" text-anchor=\"middle\" font-size=\"30\" fill=\"white\">🔔</text></svg>"),
   ("tag", Json.str "reminder-notification"),
   ("requireInteraction", Json.bool true),
   ("vibrate", Json.arr [Json.num 200, Json.num 100, Json.num 200])]

/-- An inbound push payload as the listener observes it: `event.data.json()`
parses (`jsonData`, carrying the parsed value), or throws, in which case
`event.data.text()` supplies the raw text (`textData`). -/
inductive PushData where
  | jsonData (j : Json)
  | textData (raw : String)

/-- The properties contributed by spreading a parsed JSON value over an
object literal.  Only objects contribute named fields; spreading an array
or string contributes numeric-index keys only ("0", "1", ...), which never
collide with any key of `defaultNotificationFields`, and other primitives
contribute nothing — so for every key the defaults hold, `[]` is
observationally the spread of any non-object. -/
def jsonSpreadFields : Json → List (String × Json)
  | Json.obj fs => fs
  | _ => []

/-- The `push` event listener: defaults, overridden by the parsed payload
(`{...notificationData, ...pushData}`) or, for a non-JSON payload, a
`body` overwrite with the raw text; then the platform variant (iOS:
`delete actions`, re-set vibrate and requireInteraction; otherwise attach
the two action buttons).  Field lists use last-binding-wins lookup
(`jGet`), under which appending models both spread and assignment.  The
result is always handed to `showNotification` — the notification is never
dropped. -/
def handlePush (d : Option PushData) (isIOS : Bool) : List (String × Json) :=
  let nd := defaultNotificationFields
  let nd := match d with
    | none => nd
    | some (PushData.jsonData j) => nd ++ jsonSpreadFields j
    | some (PushData.textData raw) => nd ++ [("body", Json.str raw)]
  if isIOS then
    (nd.filter (fun kv => !(kv.1 = "actions"))) ++
      [("vibrate", Json.arr [Json.num 200, Json.num 100, Json.num 200]),
       ("requireInteraction", Json.bool true)]
  else
    nd ++ [("actions",
      Json.arr [Json.obj [("action", Json.str "open"), ("title", Json.str "📱 Open App")],
                Json.obj [("action", Json.str "dismiss"), ("title", Json.str "✕ Dismiss")]])]

/-! ## Theorems -/

/-- C1: a `syncWithServer()` call made while the boolean in-progress guard
(`syncInProgress`) is set returns immediately: no `/sync-reminders`
request is issued (second component `false`) and the whole state — in
particular the in-memory reminder set, the persisted copy and the
connectivity flag — is returned unchanged.  Since every completing sync
clears the guard in the `finally` block, this is exactly the
at-most-one-sync-in-flight discipline for any interleaving of triggers. -/
theorem syncWithServer_inflight_noop (s : AppState) (o : FetchOutcome)
    (h : s.syncInProgress = true) : syncWithServer s o = (s, false) := by
  simp [syncWithServer, h]

theorem syncWithServer_inflight_noop_witness :
    syncWithServer { initState with isOnline := true, syncInProgress := true }
      (FetchOutcome.resp true 200 (some (Json.obj []))) =
    ({ initState with isOnline := true, syncInProgress := true }, false) :=
  syncWithServer_inflight_noop _ _ rfl

/-- A failing `fetch` outcome in the sense of C4: the promise rejects or
the response is non-2xx (`!response.ok`). -/
def isFailureOutcome : FetchOutcome → Bool
  | FetchOutcome.fail _ => true
  | FetchOutcome.resp ok _ _ => !ok

/-- C4: when a sync actually runs (guard passes) and its request fails or
returns non-2xx, the `catch` marks connectivity offline, the reminder set
and its persisted copy are untouched, and the `finally` clears the guard.
The last conjunct records that exactly the one original request was
issued — no retry; and the function being total on all `FetchOutcome`s is
the model of "the failure never escapes as an exception". -/
theorem syncWithServer_failure_atomic (s : AppState) (o : FetchOutcome)
    (hOn : s.isOnline = true) (hG : s.syncInProgress = false)
    (hFail : isFailureOutcome o = true) :
    (syncWithServer s o).1.reminders = s.reminders ∧
    (syncWithServer s o).1.store = s.store ∧
    (syncWithServer s o).1.isOnline = false ∧
    (syncWithServer s o).1.syncInProgress = false ∧
    (syncWithServer s o).2 = true := by
  cases o with
  | fail msg => simp [syncWithServer, hOn, hG, updateStatus]
  | resp ok st b =>
    cases ok with
    | true => simp [isFailureOutcome] at hFail
    | false => simp [syncWithServer, hOn, hG, updateStatus]

theorem syncWithServer_failure_atomic_witness :
    (syncWithServer { initState with isOnline := true } (FetchOutcome.fail "socket hang up")).1.reminders =
      ({ initState with isOnline := true } : AppState).reminders ∧
    (syncWithServer { initState with isOnline := true } (FetchOutcome.fail "socket hang up")).1.store =
      ({ initState with isOnline := true } : AppState).store ∧
    (syncWithServer { initState with isOnline := true } (FetchOutcome.fail "socket hang up")).1.isOnline = false ∧
    (syncWithServer { initState with isOnline := true } (FetchOutcome.fail "socket hang up")).1.syncInProgress = false ∧
    (syncWithServer { initState with isOnline := true } (FetchOutcome.fail "socket hang up")).2 = true :=
  syncWithServer_failure_atomic _ _ rfl rfl rfl

/-- `keepReminder` spelled out as a proposition. -/
theorem keepReminder_eq_true_iff (now : Int) (r : Reminder) :
    keepReminder now r = true ↔
      ¬(r.repeatRule = "once" ∧ now - r.dateTime > 24 * 60 * 60 * 1000) := by
  unfold keepReminder
  split <;> simp_all

/-- C2: the retention sweep removes exactly the `once` reminders strictly
older than 24 hours: such a reminder never survives the filter; one whose
scheduled time is exactly 24 hours in the past survives (the comparison is
strict); and a reminder with any other repeat rule survives no matter how
old it is. -/
theorem cleanupPastReminders_boundary (now : Int) (rs : List Reminder)
    (r : Reminder) :
    (r.repeatRule = "once" → now - r.dateTime > 24 * 60 * 60 * 1000 →
      r ∉ cleanupPastReminders now rs) ∧
    (r ∈ rs → now - r.dateTime = 24 * 60 * 60 * 1000 →
      r ∈ cleanupPastReminders now rs) ∧
    (r ∈ rs → r.repeatRule ≠ "once" → r ∈ cleanupPastReminders now rs) := by
  refine ⟨?_, ?_, ?_⟩
  · intro h1 h2 hmem
    rw [cleanupPastReminders, List.mem_filter] at hmem
    exact (keepReminder_eq_true_iff now r).mp hmem.2 ⟨h1, h2⟩
  · intro hmem heq
    rw [cleanupPastReminders, List.mem_filter]
    exact ⟨hmem, (keepReminder_eq_true_iff now r).mpr (fun hc => by omega)⟩
  · intro hmem hne
    rw [cleanupPastReminders, List.mem_filter]
    exact ⟨hmem, (keepReminder_eq_true_iff now r).mpr (fun hc => hne hc.1)⟩

theorem cleanupPastReminders_boundary_witness :
    (⟨1, 0, "water", "once", 0, none⟩ : Reminder) ∉
      cleanupPastReminders 86400001
        [⟨1, 0, "water", "once", 0, none⟩, ⟨2, 1, "pills", "once", 0, none⟩,
         ⟨3, 0, "gym", "daily", 0, none⟩] ∧
    (⟨2, 1, "pills", "once", 0, none⟩ : Reminder) ∈
      cleanupPastReminders 86400001
        [⟨1, 0, "water", "once", 0, none⟩, ⟨2, 1, "pills", "once", 0, none⟩,
         ⟨3, 0, "gym", "daily", 0, none⟩] ∧
    (⟨3, 0, "gym", "daily", 0, none⟩ : Reminder) ∈
      cleanupPastReminders 86400001
        [⟨1, 0, "water", "once", 0, none⟩, ⟨2, 1, "pills", "once", 0, none⟩,
         ⟨3, 0, "gym", "daily", 0, none⟩] :=
  ⟨(cleanupPastReminders_boundary 86400001 _ _).1 rfl (by decide),
   (cleanupPastReminders_boundary 86400001 _ _).2.1 (by decide) (by decide),
   (cleanupPastReminders_boundary 86400001 _ _).2.2 (by decide) (by decide)⟩

/-- Decoding inverts encoding on a single reminder. -/
theorem jsonToReminder_reminderToJson (r : Reminder) :
    jsonToReminder (reminderToJson r) = some r := by
  cases r with
  | mk i dt nt rp cr md => cases md <;> rfl

/-- C7: persistence round-trip identity — writing any reminder sequence
with `saveLocalReminders` (`JSON.stringify` under the `simple_reminders`
key) and reading it back with `loadLocalReminders` returns the same
sequence.  (The excluded corrupted-input fallback is the `none` branch of
the decoder, which no output of the encoder ever hits.) -/
theorem persistence_roundtrip (S : List Reminder) :
    loadLocalReminders (some (remindersToJson S)) = S := by
  have h : decodeReminderList (S.map reminderToJson) = some S := by
    induction S with
    | nil => rfl
    | cons r rs ih => simp [decodeReminderList, jsonToReminder_reminderToJson, ih]
  simp [loadLocalReminders, remindersToJson, jsonToReminders, h]

/-- C8: the service worker's fetch rule — Pi-server URLs (the remote
authority's address and port, per the source's substring test) are never
intercepted; all other requests are answered from the cache when a cached
response exists, else fetched live, and a live-fetch failure yields the
synthetic 408 "Network error" response instead of an unhandled
rejection. -/
theorem handleFetch_rule (url : String) (cache net : Option Resp) (r : Resp) :
    (isPiServerRequest url = true → handleFetch url cache net = FetchDecision.network) ∧
    (isPiServerRequest url = false → cache = some r →
      handleFetch url cache net = FetchDecision.respond r) ∧
    (isPiServerRequest url = false → cache = none → net = some r →
      handleFetch url cache net = FetchDecision.respond r) ∧
    (isPiServerRequest url = false → cache = none → net = none →
      handleFetch url cache net =
        FetchDecision.respond { status := 408, body := "Network error" }) := by
  refine ⟨?_, ?_, ?_, ?_⟩
  · intro h; simp [handleFetch, h]
  · intro h hc; simp [handleFetch, h, hc]
  · intro h hc hn; simp [handleFetch, h, hc, hn]
  · intro h hc hn; simp [handleFetch, h, hc, hn]

theorem handleFetch_rule_witness :
    handleFetch "https://192.168.0.147:3001/sync-reminders"
      (some { status := 200, body := "cached" }) none = FetchDecision.network ∧
    handleFetch "https://host.example/index.html"
      (some { status := 200, body := "cached" }) none =
      FetchDecision.respond { status := 200, body := "cached" } ∧
    handleFetch "https://host.example/app.js" none
      (some { status := 200, body := "live" }) =
      FetchDecision.respond { status := 200, body := "live" } ∧
    handleFetch "https://host.example/manifest.json" none none =
      FetchDecision.respond { status := 408, body := "Network error" } :=
  ⟨(handleFetch_rule _ _ _ { status := 200, body := "cached" }).1 (by decide),
   (handleFetch_rule _ _ _ { status := 200, body := "cached" }).2.1 (by decide) rfl,
   (handleFetch_rule _ _ _ { status := 200, body := "live" }).2.2.1 (by decide) rfl rfl,
   (handleFetch_rule _ _ _ { status := 408, body := "Network error" }).2.2.2 (by decide) rfl rfl⟩

/-- Every run of the setup sequence either aborts with the untouched state,
or succeeds setting the two flags and the persisted key. -/
theorem enableNotifications_cases (env : EnableEnv) (s : AppState) :
    (∃ msg, enableNotifications env s = (s, EnableOutcome.aborted msg)) ∨
    enableNotifications env s =
      ({ s with notificationsEnabled := true, subscriptionActive := true,
                notifEnabledKey := some "true" }, EnableOutcome.success) := by
  unfold enableNotifications
  split
  · exact Or.inl ⟨_, rfl⟩
  split
  · exact Or.inl ⟨_, rfl⟩
  split
  · exact Or.inl ⟨_, rfl⟩
  split
  · exact Or.inl ⟨_, rfl⟩
  split
  · exact Or.inl ⟨_, rfl⟩
  split
  · exact Or.inl ⟨_, rfl⟩
  split
  · exact Or.inl ⟨_, rfl⟩
  split
  · exact Or.inl ⟨_, rfl⟩
  split
  · exact Or.inl ⟨_, rfl⟩
  split
  · exact Or.inl ⟨_, rfl⟩
  exact Or.inr rfl

/-- C3: the setup sequence aborts in order with the source's specific
message for each precondition — delivery worker unavailable, permission
not granted (after consulting the prompt when still undecided),
connectivity offline — and on *every* abort, of any step, the state (in
particular the persisted `notifications_enabled` key) is exactly the
pre-call state; the key is written (to `"true"`) only when the outcome is
success, i.e. after every step of the sequence succeeded. -/
theorem enableNotifications_abort_order (env : EnableEnv) (s : AppState) :
    (env.swReady = false →
      enableNotifications env s =
        (s, EnableOutcome.aborted "Service Worker not available")) ∧
    (env.swReady = true → effectivePermission env ≠ Permission.granted →
      enableNotifications env s =
        (s, EnableOutcome.aborted "Notification permission denied")) ∧
    (env.swReady = true → effectivePermission env = Permission.granted →
      s.isOnline = false →
      enableNotifications env s =
        (s, EnableOutcome.aborted "Server not connected. Please wait for connection.")) ∧
    ((enableNotifications env s).2 ≠ EnableOutcome.success →
      (enableNotifications env s).1 = s) ∧
    ((enableNotifications env s).2 = EnableOutcome.success →
      (enableNotifications env s).1.notifEnabledKey = some "true") := by
  refine ⟨?_, ?_, ?_, ?_, ?_⟩
  · intro h; simp [enableNotifications, h]
  · intro h1 h2; simp [enableNotifications, h1, h2]
  · intro h1 h2 h3; simp [enableNotifications, h1, h2, h3]
  · intro hne
    rcases enableNotifications_cases env s with ⟨msg, he⟩ | he
    · rw [he]
    · rw [he] at hne; simp at hne
  · intro hs
    rcases enableNotifications_cases env s with ⟨msg, he⟩ | he
    · rw [he] at hs; simp at hs
    · rw [he]

theorem enableNotifications_abort_order_witness :
    enableNotifications
      { swReady := false, permission := Permission.granted,
        requestResult := Permission.granted,
        vapid := FetchOutcome.resp true 200 (some (Json.obj [("publicKey", Json.str "k")])),
        vapidJsonErr := "Unexpected end of JSON input", subscribeErr := none,
        subResp := FetchOutcome.resp true 201 (some (Json.obj [])),
        subJsonErr := "Unexpected end of JSON input" } initState =
      (initState, EnableOutcome.aborted "Service Worker not available") ∧
    enableNotifications
      { swReady := true, permission := Permission.defaultPerm,
        requestResult := Permission.denied,
        vapid := FetchOutcome.resp true 200 (some (Json.obj [("publicKey", Json.str "k")])),
        vapidJsonErr := "Unexpected end of JSON input", subscribeErr := none,
        subResp := FetchOutcome.resp true 201 (some (Json.obj [])),
        subJsonErr := "Unexpected end of JSON input" } initState =
      (initState, EnableOutcome.aborted "Notification permission denied") ∧
    enableNotifications
      { swReady := true, permission := Permission.granted,
        requestResult := Permission.granted,
        vapid := FetchOutcome.resp true 200 (some (Json.obj [("publicKey", Json.str "k")])),
        vapidJsonErr := "Unexpected end of JSON input", subscribeErr := none,
        subResp := FetchOutcome.resp true 201 (some (Json.obj [])),
        subJsonErr := "Unexpected end of JSON input" } initState =
      (initState, EnableOutcome.aborted "Server not connected. Please wait for connection.") ∧
    (enableNotifications
      { swReady := true, permission := Permission.granted,
        requestResult := Permission.granted,
        vapid := FetchOutcome.resp false 500 none,
        vapidJsonErr := "Unexpected end of JSON input", subscribeErr := none,
        subResp := FetchOutcome.resp true 201 (some (Json.obj [])),
        subJsonErr := "Unexpected end of JSON input" }
      { initState with isOnline := true }).1 = { initState with isOnline := true } :=
  ⟨(enableNotifications_abort_order _ _).1 rfl,
   (enableNotifications_abort_order _ _).2.1 rfl (by decide),
   (enableNotifications_abort_order _ _).2.2.1 rfl rfl rfl,
   (enableNotifications_abort_order _ _).2.2.2.1 (by decide)⟩

/-- No handler other than a successful probe ever sets the connectivity
flag: one event that carries no successful probe leaves an offline state
offline. -/
theorem step_preserves_offline (s : AppState) (e : AppEvent)
    (h : s.isOnline = false) (hp : eventProbeSucceeds e = false) :
    (step s e).isOnline = false := by
  cases e with
  | startupConnect probe syncO =>
    simp only [eventProbeSucceeds] at hp
    simp [step, connectToServer, connectProbe, hp, updateStatus]
  | onlineEvt probe syncO =>
    simp only [eventProbeSucceeds] at hp
    simp [step, connectToServer, connectProbe, hp, updateStatus]
  | retryTimer probe syncO =>
    simp only [eventProbeSucceeds] at hp
    simp [step, retryTick, h, connectToServer, connectProbe, hp, updateStatus]
  | offlineEvt => simp [step, handleOfflineEvent, updateStatus]
  | visibilityChange o => simp [step, handleVisible, h]
  | addEvt dt noteRaw rpt now cp o =>
    simp only [step]
    unfold addReminder
    cases dt with
    | none => exact h
    | some t =>
      simp only
      split
      · exact h
      split
      · exact h
      · simp [saveLocalReminders, h]
  | editEvt i =>
    simp only [step]
    unfold editReminder
    split <;> simp [h]
  | saveEditEvt dt noteRaw rpt now o =>
    simp only [step]
    unfold saveEdit
    cases dt with
    | none => exact h
    | some t =>
      simp only
      split
      · exact h
      split
      · simp [saveLocalReminders, h]
      · exact h
  | deleteEvt i ca o =>
    simp only [step]
    unfold deleteReminder
    split
    · split
      · simp [saveLocalReminders, h]
      · exact h
    · exact h
  | cleanupEvt now =>
    simp only [step]
    unfold cleanupPastRemindersApp
    dsimp only
    split <;> simp [saveLocalReminders, h]

/-- A trace without a successful probe never brings an offline state
online. -/
theorem runEvents_stays_offline (s : AppState) (evs : List AppEvent)
    (h : s.isOnline = false)
    (hp : evs.all (fun e => !eventProbeSucceeds e) = true) :
    (runEvents s evs).isOnline = false := by
  induction evs generalizing s with
  | nil => exact h
  | cons e es ih =>
    rw [List.all_cons, Bool.and_eq_true] at hp
    exact ih (step s e)
      (step_preserves_offline s e h (by simpa using hp.1)) hp.2

/-- C5: the connectivity state machine.  The flag starts false (Offline)
at startup and stays false across any trace of triggers containing no
successful probe; a probe that returns 2xx with a JSON body sets it true
(Online) and hands off to a sync; any failed probe (rejection, non-2xx,
or non-JSON body) and any platform offline event set it false; and being
a `Bool`, the state never holds any value other than these two. -/
theorem connectivity_state_machine :
    initState.isOnline = false ∧
    (∀ evs : List AppEvent, evs.all (fun e => !eventProbeSucceeds e) = true →
      (runEvents initState evs).isOnline = false) ∧
    (∀ (s : AppState) (o : FetchOutcome), probeSucceeds o = true →
      (connectProbe s o).1.isOnline = true ∧ (connectProbe s o).2 = true) ∧
    (∀ (s : AppState) (o so : FetchOutcome), probeSucceeds o = false →
      (connectToServer s o so).isOnline = false) ∧
    (∀ s : AppState, (handleOfflineEvent s).isOnline = false) ∧
    (∀ (s : AppState) (evs : List AppEvent),
      (runEvents s evs).isOnline = true ∨ (runEvents s evs).isOnline = false) := by
  refine ⟨rfl, ?_, ?_, ?_, ?_, ?_⟩
  · intro evs hp; exact runEvents_stays_offline initState evs rfl hp
  · intro s o h; simp [connectProbe, h, updateStatus]
  · intro s o so h; simp [connectToServer, connectProbe, h, updateStatus]
  · intro s; simp [handleOfflineEvent, updateStatus]
  · intro s evs; cases hr : (runEvents s evs).isOnline
    · exact Or.inr rfl
    · exact Or.inl rfl

theorem connectivity_state_machine_witness :
    (runEvents initState
      [AppEvent.retryTimer (FetchOutcome.fail "down") (FetchOutcome.fail "down"),
       AppEvent.offlineEvt]).isOnline = false ∧
    (connectProbe initState (FetchOutcome.resp true 200 (some (Json.obj [("message", Json.str "ok")])))).1.isOnline = true ∧
    (connectProbe initState (FetchOutcome.resp true 200 (some (Json.obj [("message", Json.str "ok")])))).2 = true ∧
    (connectToServer initState (FetchOutcome.resp false 500 none)
      (FetchOutcome.fail "down")).isOnline = false :=
  ⟨connectivity_state_machine.2.1 _ rfl,
   (connectivity_state_machine.2.2.1 initState
     (FetchOutcome.resp true 200 (some (Json.obj [("message", Json.str "ok")]))) rfl).1,
   (connectivity_state_machine.2.2.1 initState
     (FetchOutcome.resp true 200 (some (Json.obj [("message", Json.str "ok")]))) rfl).2,
   connectivity_state_machine.2.2.2.1 initState (FetchOutcome.resp false 500 none)
     (FetchOutcome.fail "down") rfl⟩

/-- Last-binding-wins lookup across an append: the appended fields win. -/
theorem jGet_append (a b : List (String × Json)) (k : String) :
    jGet (a ++ b) k =
      match jGet b k with
      | some w => some w
      | none => jGet a k := by
  induction a with
  | nil =>
    rw [List.nil_append]
    cases hb : jGet b k <;> simp [jGet]
  | cons kv rest ih =>
    rw [List.cons_append]
    simp only [jGet, ih]
    cases hb : jGet b k <;> cases hr : jGet rest k <;> simp

/-- Removing the bindings of one key does not change lookups of another. -/
theorem jGet_filter_ne (l : List (String × Json)) (a k : String)
    (h : ¬k = a) :
    jGet (l.filter (fun kv => !(kv.1 = a))) k = jGet l k := by
  induction l with
  | nil => rfl
  | cons kv rest ih =>
    by_cases hk : kv.1 = a
    · rw [List.filter_cons_of_neg (by simp [hk]), ih]
      simp only [jGet]
      cases hr : jGet rest k <;>
        simp [hk, show ¬a = k from fun hak => h hak.symm]
    · rw [List.filter_cons_of_pos (by simp [hk])]
      simp only [jGet, ih]

/-- The platform-variant step of the push handler (action buttons /
iOS overrides) never changes the bindings of keys other than `actions`,
`vibrate` and `requireInteraction`. -/
theorem jGet_handlePush_core (d : Option PushData) (ios : Bool) (k : String)
    (hk1 : ¬k = "actions") (hk2 : ¬k = "vibrate")
    (hk3 : ¬k = "requireInteraction") :
    jGet (handlePush d ios) k =
      jGet (match d with
            | none => defaultNotificationFields
            | some (PushData.jsonData j) =>
              defaultNotificationFields ++ jsonSpreadFields j
            | some (PushData.textData raw) =>
              defaultNotificationFields ++ [("body", Json.str raw)]) k := by
  unfold handlePush
  cases ios with
  | false =>
    dsimp only
    rw [if_neg (by decide)]
    rw [jGet_append]
    simp [jGet, show ¬"actions" = k from fun hh => hk1 hh.symm]
  | true =>
    dsimp only
    rw [if_pos rfl]
    rw [jGet_append, jGet_filter_ne _ _ _ hk1]
    simp [jGet, show ¬"vibrate" = k from fun hh => hk2 hh.symm,
          show ¬"requireInteraction" = k from fun hh => hk3 hh.symm]

/-- C6: inbound push payload handling.  With no payload the rendered
notification carries the full fixed default title and body; a payload that
parses as a JSON object is merged over the defaults, so each of title and
body is the payload's binding when present and the default otherwise (in
particular `{}` yields both defaults and `{"body": ...}` keeps the default
title); a payload that does not parse becomes the body verbatim with the
default title.  `handlePush` is total and its result is always passed to
`showNotification`, so no case drops the notification. -/
theorem push_payload_merge (ios : Bool) (fs : List (String × Json))
    (raw : String) :
    (jGet (handlePush none ios) "title" = some (Json.str "⏰ Reminder") ∧
     jGet (handlePush none ios) "body" =
       some (Json.str "Scheduled reminder from your Pi!")) ∧
    (jGet (handlePush (some (PushData.jsonData (Json.obj fs))) ios) "title" =
       some ((jGet fs "title").getD (Json.str "⏰ Reminder")) ∧
     jGet (handlePush (some (PushData.jsonData (Json.obj fs))) ios) "body" =
       some ((jGet fs "body").getD (Json.str "Scheduled reminder from your Pi!"))) ∧
    (jGet (handlePush (some (PushData.textData raw)) ios) "title" =
       some (Json.str "⏰ Reminder") ∧
     jGet (handlePush (some (PushData.textData raw)) ios) "body" =
       some (Json.str raw)) := by
  refine ⟨⟨?_, ?_⟩, ⟨?_, ?_⟩, ⟨?_, ?_⟩⟩
  · rw [jGet_handlePush_core _ _ _ (by decide) (by decide) (by decide)]
    rfl
  · rw [jGet_handlePush_core _ _ _ (by decide) (by decide) (by decide)]
    rfl
  · rw [jGet_handlePush_core _ _ _ (by decide) (by decide) (by decide)]
    dsimp only [jsonSpreadFields]
    rw [jGet_append]
    cases hf : jGet fs "title" with
    | none => simp only [hf, Option.getD_none]; rfl
    | some w => simp [hf]
  · rw [jGet_handlePush_core _ _ _ (by decide) (by decide) (by decide)]
    dsimp only [jsonSpreadFields]
    rw [jGet_append]
    cases hf : jGet fs "body" with
    | none => simp only [hf, Option.getD_none]; rfl
    | some w => simp [hf]
  · rw [jGet_handlePush_core _ _ _ (by decide) (by decide) (by decide)]
    dsimp only
    rw [jGet_append]
    simp [jGet]
  · rw [jGet_handlePush_core _ _ _ (by decide) (by decide) (by decide)]
    dsimp only
    rw [jGet_append]
    simp [jGet]

/-- A sync never touches the reminder set. -/
theorem syncWithServer_reminders (s : AppState) (o : FetchOutcome) :
    (syncWithServer s o).1.reminders = s.reminders := by
  unfold syncWithServer
  split
  · rfl
  · split <;> rfl

/-- A sync never touches the persisted copy. -/
theorem syncWithServer_store (s : AppState) (o : FetchOutcome) :
    (syncWithServer s o).1.store = s.store := by
  unfold syncWithServer
  split
  · rfl
  · split <;> rfl

/-- `updateFirst` with an id-preserving update preserves the id list. -/
theorem map_id_updateFirst (p : Reminder → Bool) (f : Reminder → Reminder)
    (hf : ∀ r, (f r).id = r.id) (l : List Reminder) :
    (updateFirst p f l).map Reminder.id = l.map Reminder.id := by
  induction l with
  | nil => rfl
  | cons x xs ih =>
    by_cases hx : p x <;> simp [updateFirst, hx, hf, ih]

/-- C9, counterexample to the claim as stated: `id` is `Date.now()`, so two
creations that observe the same millisecond clock reading produce two
distinct reminders (different notes) with *equal* ids — neither unique nor
strictly increasing. -/
theorem reminder_id_collision :
    ((addReminder
        (addReminder initState (some 2000) "a" "once" 1000 true (FetchOutcome.fail ""))
        (some 2000) "b" "once" 1000 true (FetchOutcome.fail "")).reminders.map
      Reminder.id = [1000, 1000]) ∧
    ((addReminder
        (addReminder initState (some 2000) "a" "once" 1000 true (FetchOutcome.fail ""))
        (some 2000) "b" "once" 1000 true (FetchOutcome.fail "")).reminders.map
      Reminder.note = ["a", "b"]) := by
  decide

/-- C9, amended: an id is assigned at creation from the clock reading and
is never modified afterwards (`saveEdit` preserves every id, as does a
sync), and ids are unique and strictly larger than all existing ones
*provided* the creation observes a clock value above every stored id —
which holds whenever successive creations observe strictly increasing
clock readings, but can fail for two creations within one millisecond. -/
theorem reminder_id_discipline (s : AppState) (dt : Option Int)
    (noteRaw rpt : String) (now : Int) (cp : Bool) (o : FetchOutcome)
    (dt2 : Option Int) (noteRaw2 rpt2 : String) (now2 : Int)
    (o2 : FetchOutcome) (h : ∀ r ∈ s.reminders, r.id < now) :
    ((addReminder s dt noteRaw rpt now cp o).reminders = s.reminders ∨
     ∃ nr : Reminder,
       (addReminder s dt noteRaw rpt now cp o).reminders = s.reminders ++ [nr] ∧
       nr.id = now ∧ ∀ r ∈ s.reminders, r.id < nr.id) ∧
    ((saveEdit s dt2 noteRaw2 rpt2 now2 o2).1.reminders.map Reminder.id =
      s.reminders.map Reminder.id) := by
  constructor
  · unfold addReminder
    cases dt with
    | none => exact Or.inl rfl
    | some t =>
      dsimp only
      split
      · exact Or.inl rfl
      split
      · exact Or.inl rfl
      · refine Or.inr ⟨{ id := now, dateTime := t, note := jsTrim noteRaw,
                         repeatRule := rpt, created := now, modified := none },
                       ?_, rfl, h⟩
        split
        · rw [syncWithServer_reminders]
          rfl
        · rfl
  · unfold saveEdit
    cases dt2 with
    | none => rfl
    | some t =>
      dsimp only
      split
      · rfl
      split
      · split
        · rw [syncWithServer_reminders]
          exact map_id_updateFirst (fun b => decide (s.editingId = some b.id))
            (fun r => { r with dateTime := t, note := jsTrim noteRaw2, repeatRule := rpt2, modified := some now2 })
            (fun r => rfl) s.reminders
        · exact map_id_updateFirst (fun b => decide (s.editingId = some b.id))
            (fun r => { r with dateTime := t, note := jsTrim noteRaw2, repeatRule := rpt2, modified := some now2 })
            (fun r => rfl) s.reminders
      · rfl

theorem reminder_id_discipline_witness :
    ((addReminder { initState with reminders := [⟨500, 900, "x", "once", 500, none⟩] }
        (some 2000) "a" "once" 1000 true (FetchOutcome.fail "")).reminders =
       [⟨500, 900, "x", "once", 500, none⟩] ∨
     ∃ nr : Reminder,
       (addReminder { initState with reminders := [⟨500, 900, "x", "once", 500, none⟩] }
          (some 2000) "a" "once" 1000 true (FetchOutcome.fail "")).reminders =
         [⟨500, 900, "x", "once", 500, none⟩] ++ [nr] ∧
       nr.id = 1000 ∧
       ∀ r ∈ ([⟨500, 900, "x", "once", 500, none⟩] : List Reminder), r.id < nr.id) ∧
    ((saveEdit { initState with reminders := [⟨500, 900, "x", "once", 500, none⟩] }
        (some 3000) "b" "daily" 2000 (FetchOutcome.fail "")).1.reminders.map
      Reminder.id =
      ([⟨500, 900, "x", "once", 500, none⟩] : List Reminder).map Reminder.id) :=
  reminder_id_discipline _ (some 2000) "a" "once" 1000 true (FetchOutcome.fail "")
    (some 3000) "b" "daily" 2000 (FetchOutcome.fail "") (by decide)

/-- C10: operations addressed at an id that matches no stored reminder are
complete no-ops, each under only its own condition.  Whenever `i` matches
no stored id — regardless of `editingId`, so also in the middle of an
editing session — `deleteReminder` returns before the confirmation prompt
(second component `false`), with the state — reminder set, persisted copy
and all — unchanged and no sync issued (third component `false`), and
`editReminder` returns without touching the state; and, separately,
whenever `editingId` matches no stored reminder, `saveEdit` leaves the
state unchanged and issues no sync. -/
theorem missing_id_noop (s : AppState) (i : Int) (ca : Bool)
    (o o2 : FetchOutcome) (dt : Option Int) (noteRaw rpt : String)
    (now : Int) :
    ((∀ r ∈ s.reminders, r.id ≠ i) →
      deleteReminder s i ca o = (s, false, false) ∧ editReminder s i = s) ∧
    ((∀ r ∈ s.reminders, s.editingId ≠ some r.id) →
      saveEdit s dt noteRaw rpt now o2 = (s, false)) := by
  constructor
  · intro h
    have hany : (s.reminders.any fun r => decide (r.id = i)) = false := by
      rw [List.any_eq_false]
      intro r hr
      simp [h r hr]
    constructor
    · unfold deleteReminder
      rw [hany]
      rfl
    · unfold editReminder
      rw [hany]
      rfl
  · intro h2
    have hany2 : (s.reminders.any fun r => decide (s.editingId = some r.id)) = false := by
      rw [List.any_eq_false]
      intro r hr
      simp [h2 r hr]
    unfold saveEdit
    cases dt with
    | none => rfl
    | some t =>
      dsimp only
      split
      · rfl
      · rw [hany2]
        rfl

theorem missing_id_noop_witness :
    deleteReminder
      { initState with reminders := [⟨500, 900, "x", "once", 500, none⟩],
                       editingId := some 500 } 2 true
      (FetchOutcome.fail "") =
      ({ initState with reminders := [⟨500, 900, "x", "once", 500, none⟩],
                        editingId := some 500 }, false, false) ∧
    editReminder
      { initState with reminders := [⟨500, 900, "x", "once", 500, none⟩],
                       editingId := some 500 } 2 =
      { initState with reminders := [⟨500, 900, "x", "once", 500, none⟩],
                       editingId := some 500 } ∧
    saveEdit
      { initState with reminders := [⟨500, 900, "x", "once", 500, none⟩] }
      (some 3000) "b" "daily" 2000 (FetchOutcome.fail "") =
      ({ initState with reminders := [⟨500, 900, "x", "once", 500, none⟩] }, false) :=
  ⟨((missing_id_noop
      { initState with reminders := [⟨500, 900, "x", "once", 500, none⟩],
                       editingId := some 500 } 2 true
      (FetchOutcome.fail "") (FetchOutcome.fail "")
      (some 3000) "b" "daily" 2000).1 (by decide)).1,
   ((missing_id_noop
      { initState with reminders := [⟨500, 900, "x", "once", 500, none⟩],
                       editingId := some 500 } 2 true
      (FetchOutcome.fail "") (FetchOutcome.fail "")
      (some 3000) "b" "daily" 2000).1 (by decide)).2,
   (missing_id_noop
      { initState with reminders := [⟨500, 900, "x", "once", 500, none⟩] } 2 true
      (FetchOutcome.fail "") (FetchOutcome.fail "")
      (some 3000) "b" "daily" 2000).2 (by decide)⟩
